import Mathlib

/-!
Verification of the feature-selection-to-map-rendering pipeline of
`tb_dash.py` (WHO tuberculosis dashboard).

The embedding models the module as follows.

* The Dataset Table `df` (loaded at line 8 from a CSV file) is a list of
  rows; each row carries the `country`, `iso3` and `year` columns and an
  association list of numeric feature cells, a cell being `none` when the
  CSV value is missing (pandas `NaN`).
* The Feature Catalog `feature_labels` (lines 11-29) is the literal
  association list from the source.
* `plot_world_map` (lines 32-79) is a pure constructor of a figure
  specification; all its keyword parameters are explicit arguments here,
  and the call sites pass the Python default values positionally.
* The callback `update_world_map` (lines 118-143) returns
  `Except String Fig`: a raised `KeyError` is modelled as `Except.error`
  with a message naming the raising site, the `px.scatter` no-data figure
  as `Fig.scatter`, and the choropleth as `Fig.map`.
* `pandas.Series.quantile` with the default linear interpolation is
  modelled exactly over `ℚ` by `quantile`.
-/

namespace TbDash

/-- One row of the Dataset Table: the `country`, `iso3` and `year` columns
plus the numeric feature cells, keyed by column name; a cell holds `none`
where the CSV has a missing value. -/
structure Row where
  country : String
  iso3 : String
  year : Int
  cells : List (String × Option ℚ)
deriving DecidableEq

/-- The Dataset Table: the in-memory frame loaded once at process start
(line 8 of `tb_dash.py`). -/
abbrev Dataset := List Row

/-- Value of feature column `c` in row `r`: `none` when the cell is missing
(or the column absent, a case the callers guard with `hasCol`). -/
def cellVal (r : Row) (c : String) : Option ℚ :=
  (r.cells.lookup c).join

/-- Pandas `notna()` on one cell. -/
def notNA (r : Row) (c : String) : Bool :=
  (cellVal r c).isSome

/-- Column presence in the frame: accessing a column that is not in the
frame raises `KeyError` in pandas. -/
def hasCol (df : Dataset) (c : String) : Bool :=
  df.all (fun r => (r.cells.lookup c).isSome)

/-- The Feature Catalog, literally lines 11-29 of `tb_dash.py`. -/
def feature_labels : List (String × String) :=
  [ ("c_newinc", "New Cases Reported"),
    ("c_per_100k", "Cases per 100k Population"),
    ("new_ep", "New Extrapulmonary Cases"),
    ("ret_rel", "Relapse Cases"),
    ("newrel_hivpos", "New HIV+ TB Cases"),
    ("c_new_female", "New Female Cases"),
    ("c_new_male", "New Male Cases"),
    ("c_new_un", "New Cases Unknown Sex"),
    ("c_new_female_0_24", "New Female Cases (0–24)"),
    ("c_new_female_25_44", "New Female Cases (25–44)"),
    ("c_new_female_45_64", "New Female Cases (45–64)"),
    ("c_new_female_65", "New Female Cases (65+)"),
    ("c_new_male_0_24", "New Male Cases (0–24)"),
    ("c_new_male_25_44", "New Male Cases (25–44)"),
    ("c_new_male_45_64", "New Male Cases (45–64)"),
    ("c_new_male_65", "New Male Cases (65+)"),
    ("c_new_unknown_0_24", "New Cases Unknown Sex (0–24)") ]

/-- The distinct years of the frame, as grouped by `df.groupby("year")`
(line 120). -/
def years (df : Dataset) : List Int :=
  (df.map Row.year).dedup

/-- The per-year boolean of line 121: whether any row of year `y` has a
non-missing value for `feat` (`lambda x: x.notna().any()`). -/
def isValidYear (df : Dataset) (feat : String) (y : Int) : Bool :=
  (df.filter (fun r => r.year == y)).any (fun r => notNA r feat)

/-- Model of `valid_years[valid_years].index` at line 123: the years whose group
had at least one non-missing value for `feat`. -/
def validYears (df : Dataset) (feat : String) : List Int :=
  (years df).filter (isValidYear df feat)

/-- Model of line 123,
`filtered_df = df[df["year"].isin(valid_years[valid_years].index)]`. -/
def filteredView (df : Dataset) (feat : String) : Dataset :=
  df.filter (fun r => (validYears df feat).contains r.year)

/-- The non-missing values of column `feat` over the rows of `l`, in row
order: `l[feat].dropna()` (line 129). -/
def nonMissingVals (l : Dataset) (feat : String) : List ℚ :=
  l.filterMap (fun r => cellVal r feat)

/-- Model of `pandas.Series.quantile(q)` with the default linear interpolation:
on the sorted values `s` of length `n`, the result sits at the fractional
position `h = q * (n - 1)`, linearly interpolated between `s[⌊h⌋]` and
`s[⌊h⌋ + 1]`. On an empty series pandas returns `NaN`; the pipeline
never reaches that case (claim C4), and the embedding returns `0` there. -/
def quantile (q : ℚ) (l : List ℚ) : ℚ :=
  match l with
  | [] => 0
  | _ :: _ =>
    let s := List.insertionSort (· ≤ ·) l
    let h : ℚ := q * ((l.length : ℚ) - 1)
    let i : ℕ := h.floor.toNat
    let lo := s.getD i 0
    let hi := s.getD (i + 1) lo
    lo + (h - (i : ℚ)) * (hi - lo)

/-- The figure specification produced by `plot_world_map`
(lines 38-77): the `px.choropleth` arguments together with the layout
options set by `fig.update_layout`. -/
structure FigSpec where
  data : Dataset
  locations : String
  color : String
  hover_name : String
  animation_frame : String
  color_continuous_scale : String
  projection : String
  title : String
  range_color : Option (ℚ × ℚ)
  width : ℕ
  height : ℕ
  slider_x : ℚ
  slider_len : ℚ
  colorbar_title : String
  colorbar_len : ℚ
  colorbar_thickness : ℚ
  colorbar_x : ℚ
  title_x : ℚ
deriving DecidableEq

/-- A figure returned by the callback: either the degenerate
`px.scatter(title=...)` no-data figure of line 126, carrying only its
title, or a full choropleth specification. -/
inductive Fig where
  | scatter (title : String)
  | map (spec : FigSpec)
deriving DecidableEq

/-- Model of `plot_world_map` (lines 32-79). Every Python keyword parameter is an
explicit argument, in source order; `range_color` is set to
`(vmin, vmax) if vmin is not None and vmax is not None else None`
(line 47), and the title is centered at `x = 0.5` (lines 72-76). -/
def plot_world_map (df : Dataset) (locations color hover_name animation_frame : String)
    (title colorbar_title color_scale projection_type : String)
    (slider_x slider_len colorbar_len colorbar_thickness colorbar_x : ℚ)
    (width height : ℕ) (vmin vmax : Option ℚ) : FigSpec :=
  { data := df
    locations := locations
    color := color
    hover_name := hover_name
    animation_frame := animation_frame
    color_continuous_scale := color_scale
    projection := projection_type
    title := title
    range_color :=
      match vmin, vmax with
      | some a, some b => some (a, b)
      | _, _ => none
    width := width
    height := height
    slider_x := slider_x
    slider_len := slider_len
    colorbar_title := colorbar_title
    colorbar_len := colorbar_len
    colorbar_thickness := colorbar_thickness
    colorbar_x := colorbar_x
    title_x := 1/2 }

/-- The callback `update_world_map` (lines 118-143). Line 120 accesses
column `selected_feature` of the grouped frame, raising `KeyError` when
the column is absent; line 130 looks `selected_feature` up in
`feature_labels`, raising `KeyError` when it is not a catalog key. Both
raises are modelled as `Except.error` naming the site. The remaining
arguments of the `plot_world_map` call (line 132-142) are the Python
defaults of lines 33-37. -/
def update_world_map (df : Dataset) (selected_feature : String) : Except String Fig :=
  if hasCol df selected_feature then
    let filtered_df := filteredView df selected_feature
    if filtered_df.isEmpty then
      Except.ok (Fig.scatter "No data available for selected feature.")
    else
      let vmin : ℚ := 0
      let vmax : ℚ := quantile (99/100) (nonMissingVals filtered_df selected_feature)
      match feature_labels.lookup selected_feature with
      | none => Except.error ("KeyError at feature_labels lookup: " ++ selected_feature)
      | some readable_title =>
          Except.ok (Fig.map (plot_world_map filtered_df "iso3" selected_feature
            "country" "year"
            ("Global TB Map for " ++ readable_title) readable_title
            "Viridis" "natural earth"
            (2/10) (6/10) (5/10) 10 (9/10) 1200 700
            (some vmin) (some vmax)))
  else
    Except.error ("KeyError at groupby column access: " ++ selected_feature)

/-- The state the process builds at startup. -/
structure AppState where
  df : Dataset
  dropdown_options : List (String × String)
  default_value : String
  app_title : String
deriving DecidableEq

/-- Top-level initialization (lines 8-112 of `tb_dash.py`): load the
frame, fix the catalog, build the layout (dropdown options enumerate
`feature_labels`, initial value `"c_newinc"`). No step checks the
catalog keys against the frame's columns, so startup never fails for a
catalog/column mismatch. -/
def startup (data : Dataset) : Except String AppState :=
  Except.ok
    { df := data
      dropdown_options := feature_labels
      default_value := "c_newinc"
      app_title := "TB Dashboard" }

/-- The callback viewed as a transition on the module state `df`: the
body of `update_world_map` only reads `df` (`groupby`, boolean mask,
`dropna`, `quantile` all return fresh objects) and contains no assignment
to it, so the state component is returned unchanged. -/
def update_world_map_state (df : Dataset) (feat : String) :
    Dataset × Except String Fig :=
  (df, update_world_map df feat)

/-! Concrete frames used to instantiate the theorems: the scenario of the
spec (an Afghanistan row with `c_newinc = 120` in 2010 and a missing value
in 2011), extended with an all-missing catalog column `ret_rel`, an
all-missing non-catalog column `extra`, and a non-catalog column
`notacat` carrying a value. -/

/-- The 2010 scenario row. -/
def row2010 : Row :=
  { country := "Afghanistan", iso3 := "AFG", year := 2010,
    cells := [("c_newinc", some 120), ("ret_rel", none),
              ("extra", none), ("notacat", some 5)] }

/-- The 2011 scenario row: `c_newinc` missing. -/
def row2011 : Row :=
  { country := "Afghanistan", iso3 := "AFG", year := 2011,
    cells := [("c_newinc", none), ("ret_rel", none),
              ("extra", none), ("notacat", none)] }

/-- The scenario frame. -/
def exDf : Dataset := [row2010, row2011]

/-- A row of a frame that lacks the catalog column `c_newinc`. -/
def rowNoCol : Row :=
  { country := "Nowhere", iso3 := "XXX", year := 2010,
    cells := [("extra", some 1)] }

/-- A frame missing the catalog column `c_newinc`: the configuration
defect of §7 of the spec. -/
def noColDf : Dataset := [rowNoCol]

/-- Rows for the valid-year retention check: in 2010 one row has
`c_newinc` and one does not; in 2011 the value is missing everywhere. -/
def rowA2010 : Row :=
  { country := "A", iso3 := "AAA", year := 2010, cells := [("c_newinc", some 1)] }

/-- Row of 2010 with `c_newinc` missing (retained by the filter). -/
def rowB2010 : Row :=
  { country := "B", iso3 := "BBB", year := 2010, cells := [("c_newinc", none)] }

/-- Row of 2011 with `c_newinc` missing (its year is dropped). -/
def rowA2011 : Row :=
  { country := "A", iso3 := "AAA", year := 2011, cells := [("c_newinc", none)] }

/-- The retention-check frame. -/
def exDf3 : Dataset := [rowA2010, rowB2010, rowA2011]

/-- Value of `Rat.floor` at `0`, by computation. -/
theorem rat_floor_zero : (0 : ℚ).floor = 0 := rfl

/-- The quantile of a one-element series is that element, for any `q`:
the interpolation position is `q * (1 - 1) = 0`. -/
theorem quantile_singleton (q : ℚ) (v : ℚ) : quantile q [v] = v := by
  simp [quantile, rat_floor_zero]

/-- Membership in `dropna`: a value occurs among the non-missing values of
`feat` over `l` exactly when some row of `l` holds it. -/
theorem mem_nonMissingVals {l : Dataset} {feat : String} {v : ℚ} :
    v ∈ nonMissingVals l feat ↔ ∃ r ∈ l, cellVal r feat = some v := by
  simp [nonMissingVals, List.mem_filterMap]

/-- Pandas `notna()` on a cell holds exactly when the cell carries a value. -/
theorem notNA_iff {r : Row} {feat : String} :
    notNA r feat = true ↔ ∃ v, cellVal r feat = some v := by
  simp [notNA, Option.isSome_iff_exists]

/-- A year survives the `valid_years` boolean of lines 119-122 exactly when
some row of that year has a non-missing value for `feat`. -/
theorem mem_validYears {df : Dataset} {feat : String} {y : Int} :
    y ∈ validYears df feat ↔ ∃ r ∈ df, r.year = y ∧ notNA r feat = true := by
  constructor
  · intro hy
    rcases List.mem_filter.mp hy with ⟨-, hvalid⟩
    rcases List.any_eq_true.mp hvalid with ⟨r, hrmem, hna⟩
    rcases List.mem_filter.mp hrmem with ⟨hrdf, hyr⟩
    exact ⟨r, hrdf, by simpa using hyr, hna⟩
  · rintro ⟨r, hrdf, hyr, hna⟩
    apply List.mem_filter.mpr
    refine ⟨?_, ?_⟩
    · simp only [years, List.mem_dedup, List.mem_map]
      exact ⟨r, hrdf, hyr⟩
    · exact List.any_eq_true.mpr ⟨r, List.mem_filter.mpr ⟨hrdf, by simp [hyr]⟩, hna⟩

/-- Membership in the `isin`-filtered frame of line 123: a row is kept
exactly when it is a row of the frame whose year has at least one row with
a non-missing value for `feat`. -/
theorem mem_filteredView {df : Dataset} {feat : String} {r : Row} :
    r ∈ filteredView df feat ↔
      r ∈ df ∧ ∃ rw ∈ df, rw.year = r.year ∧ notNA rw feat = true := by
  rw [filteredView, List.mem_filter]
  have hc : ((validYears df feat).contains r.year = true) ↔ r.year ∈ validYears df feat := by
    simp [List.contains, List.elem_iff]
  rw [hc, mem_validYears]

/-- The filtered frame is empty exactly when `feat` has no non-missing
value anywhere in the frame. -/
theorem filteredView_eq_nil_iff {df : Dataset} {feat : String} :
    filteredView df feat = [] ↔ nonMissingVals df feat = [] := by
  constructor
  · intro h
    by_contra hne
    obtain ⟨v, hv⟩ := List.exists_mem_of_ne_nil _ hne
    rcases mem_nonMissingVals.mp hv with ⟨r, hrdf, hcell⟩
    have hna : notNA r feat = true := by simp [notNA, hcell]
    have hmem : r ∈ filteredView df feat := mem_filteredView.mpr ⟨hrdf, r, hrdf, rfl, hna⟩
    simp [h] at hmem
  · intro h
    rw [List.eq_nil_iff_forall_not_mem]
    intro r hr
    rcases mem_filteredView.mp hr with ⟨hrdf, rw, hrwdf, hy, hna⟩
    rcases notNA_iff.mp hna with ⟨v, hv⟩
    have hmem : v ∈ nonMissingVals df feat := mem_nonMissingVals.mpr ⟨rw, hrwdf, hv⟩
    simp [h] at hmem

/-- When the filtered frame is non-empty, the series `dropna()` of line
129 is non-empty as well: some kept year has a witness row, and that row
is itself kept. -/
theorem nonMissingVals_filteredView_ne_nil {df : Dataset} {feat : String}
    (h : filteredView df feat ≠ []) :
    nonMissingVals (filteredView df feat) feat ≠ [] := by
  obtain ⟨r, hr⟩ := List.exists_mem_of_ne_nil _ h
  rcases mem_filteredView.mp hr with ⟨hrdf, rw, hrwdf, hy, hna⟩
  have hrwfv : rw ∈ filteredView df feat := mem_filteredView.mpr ⟨hrwdf, rw, hrwdf, rfl, hna⟩
  rcases notNA_iff.mp hna with ⟨v, hv⟩
  have hmem : v ∈ nonMissingVals (filteredView df feat) feat :=
    mem_nonMissingVals.mpr ⟨rw, hrwfv, hv⟩
  intro hnil
  simp [hnil] at hmem

/-- Branch of line 120: a missing column raises `KeyError` in the
`groupby` column access. -/
theorem update_eq_col_error {df : Dataset} {feat : String} (h : hasCol df feat = false) :
    update_world_map df feat =
      Except.error ("KeyError at groupby column access: " ++ feat) := by
  simp [update_world_map, h]

/-- Branch of lines 125-126: empty filtered frame, degenerate figure. -/
theorem update_eq_scatter {df : Dataset} {feat : String}
    (hcol : hasCol df feat = true) (hnil : filteredView df feat = []) :
    update_world_map df feat =
      Except.ok (Fig.scatter "No data available for selected feature.") := by
  simp [update_world_map, hcol, hnil]

/-- Branch of line 130 for a non-catalog feature with data: the
`feature_labels` lookup raises `KeyError`, after the filter and the
quantile of lines 119-129 have been computed. -/
theorem update_eq_label_error {df : Dataset} {feat : String}
    (hcol : hasCol df feat = true) (hne : filteredView df feat ≠ [])
    (hlab : feature_labels.lookup feat = none) :
    update_world_map df feat =
      Except.error ("KeyError at feature_labels lookup: " ++ feat) := by
  simp [update_world_map, hcol, hne, hlab]

/-- Branch of lines 128-143 for a catalog feature with data: the full
choropleth request. -/
theorem update_eq_map {df : Dataset} {feat label : String}
    (hcol : hasCol df feat = true) (hne : filteredView df feat ≠ [])
    (hlab : feature_labels.lookup feat = some label) :
    update_world_map df feat =
      Except.ok (Fig.map (plot_world_map (filteredView df feat)
        "iso3" feat "country" "year"
        ("Global TB Map for " ++ label) label "Viridis" "natural earth"
        (2/10) (6/10) (5/10) 10 (9/10) 1200 700
        (some 0)
        (some (quantile (99/100) (nonMissingVals (filteredView df feat) feat))))) := by
  simp [update_world_map, hcol, hne, hlab]

/-- Whenever the callback returns a choropleth, its data is exactly the
valid-years filtered frame of line 123. -/
theorem map_data_eq_filteredView {df : Dataset} {feat : String} {fs : FigSpec}
    (hfs : update_world_map df feat = Except.ok (Fig.map fs)) :
    fs.data = filteredView df feat := by
  cases hcol : hasCol df feat with
  | false =>
    rw [update_eq_col_error hcol] at hfs
    simp at hfs
  | true =>
    by_cases hnil : filteredView df feat = []
    · rw [update_eq_scatter hcol hnil] at hfs
      simp at hfs
    · cases hlab : feature_labels.lookup feat with
      | none =>
        rw [update_eq_label_error hcol hnil hlab] at hfs
        simp at hfs
      | some label =>
        rw [update_eq_map hcol hnil hlab] at hfs
        simp only [Except.ok.injEq, Fig.map.injEq] at hfs
        rw [← hfs]
        rfl

/-- Claim C1: for a selected feature, the filtered view used by
`update_world_map` consists of exactly the rows of the frame whose year
has at least one row with a non-missing value for the feature; a row of a
valid year is kept even when its own value is missing, and every
choropleth the callback returns carries precisely this view. -/
theorem C1_filtered_view_exact (df : Dataset) (feat : String) :
    (∀ r, r ∈ filteredView df feat ↔
        (r ∈ df ∧ ∃ rw ∈ df, rw.year = r.year ∧ notNA rw feat = true)) ∧
    (∀ fs, update_world_map df feat = Except.ok (Fig.map fs) →
        fs.data = filteredView df feat) := by
  exact ⟨fun r => mem_filteredView, fun fs hfs => map_data_eq_filteredView hfs⟩

/-- Claim C1 witness: in the three-row frame, the 2010 row with a missing
`c_newinc` is retained (2010 has another non-missing row) and the 2011
row is excluded (2011 is all-missing). -/
theorem C1_filtered_view_exact_witness :
    rowB2010 ∈ filteredView exDf3 "c_newinc" ∧
    rowA2011 ∉ filteredView exDf3 "c_newinc" := by
  have h := C1_filtered_view_exact exDf3 "c_newinc"
  constructor
  · exact (h.1 rowB2010).mpr ⟨by decide, rowA2010, by decide, by decide, by decide⟩
  · intro hmem
    rcases (h.1 rowA2011).mp hmem with ⟨-, rw, hrw, hy, hna⟩
    have hcases : rw = rowA2010 ∨ rw = rowB2010 ∨ rw = rowA2011 := by
      simpa [exDf3] using hrw
    rcases hcases with rfl | rfl | rfl
    · exact absurd hy (by decide)
    · exact absurd hna (by decide)
    · exact absurd hna (by decide)

/-- Claim C2: for a catalog feature (present as a column), the callback
returns the degenerate no-data figure exactly when the feature has zero
non-missing values in the whole frame, and otherwise returns a
choropleth. -/
theorem C2_no_data_iff (df : Dataset) (feat : String)
    (hcat : (feature_labels.lookup feat).isSome = true)
    (hcol : hasCol df feat = true) :
    (update_world_map df feat =
        Except.ok (Fig.scatter "No data available for selected feature.") ↔
      nonMissingVals df feat = []) ∧
    (nonMissingVals df feat ≠ [] →
      ∃ fs, update_world_map df feat = Except.ok (Fig.map fs)) := by
  obtain ⟨label, hlab⟩ := Option.isSome_iff_exists.mp hcat
  constructor
  · constructor
    · intro h
      by_contra hne
      have hfne : filteredView df feat ≠ [] := fun hnil =>
        hne (filteredView_eq_nil_iff.mp hnil)
      rw [update_eq_map hcol hfne hlab] at h
      simp at h
    · intro h
      exact update_eq_scatter hcol (filteredView_eq_nil_iff.mpr h)
  · intro hne
    have hfne : filteredView df feat ≠ [] := fun hnil =>
      hne (filteredView_eq_nil_iff.mp hnil)
    exact ⟨_, update_eq_map hcol hfne hlab⟩

/-- Claim C2 witness: `ret_rel` is a catalog feature, is a column of the
scenario frame, and is missing in every row, so the callback returns the
no-data figure. -/
theorem C2_no_data_iff_witness :
    update_world_map exDf "ret_rel" =
      Except.ok (Fig.scatter "No data available for selected feature.") :=
  (C2_no_data_iff exDf "ret_rel" (by decide) (by decide)).1.mpr (by decide)

/-- Claim C3: for a catalog feature with at least one non-missing value,
the choropleth's color range is exactly `(0, q₉₉)` where `q₉₉` is the
99th percentile of the feature's non-missing values within the filtered
view. -/
theorem C3_color_range (df : Dataset) (feat label : String)
    (hlab : feature_labels.lookup feat = some label)
    (hcol : hasCol df feat = true)
    (hne : nonMissingVals df feat ≠ []) :
    ∃ fs, update_world_map df feat = Except.ok (Fig.map fs) ∧
      fs.range_color =
        some (0, quantile (99/100) (nonMissingVals (filteredView df feat) feat)) := by
  have hfne : filteredView df feat ≠ [] := fun h => hne (filteredView_eq_nil_iff.mp h)
  exact ⟨_, update_eq_map hcol hfne hlab, rfl⟩

/-- Claim C3 witness: on the scenario frame, `c_newinc` yields a
choropleth whose color range is `(0, q₉₉)` of the filtered view. -/
theorem C3_color_range_witness :
    ∃ fs, update_world_map exDf "c_newinc" = Except.ok (Fig.map fs) ∧
      fs.range_color =
        some (0, quantile (99/100) (nonMissingVals (filteredView exDf "c_newinc") "c_newinc")) :=
  C3_color_range exDf "c_newinc" "New Cases Reported" rfl (by decide) (by decide)

/-- Claim C4: whenever the filtered view is non-empty, the series of
non-missing values the 99th-percentile bound is taken over is itself
non-empty: the quantile of line 129 is never taken of an empty series. -/
theorem C4_quantile_series_nonempty (df : Dataset) (feat : String)
    (h : filteredView df feat ≠ []) :
    nonMissingVals (filteredView df feat) feat ≠ [] :=
  nonMissingVals_filteredView_ne_nil h

/-- Claim C4 witness, on the scenario frame. -/
theorem C4_quantile_series_nonempty_witness :
    nonMissingVals (filteredView exDf "c_newinc") "c_newinc" ≠ [] :=
  C4_quantile_series_nonempty exDf "c_newinc" (by decide)

/-- Claim C5 counterexample: `extra` is not a catalog key, yet the
callback on the scenario frame is not rejected before step 1: it runs the
whole valid-years computation on the frame and returns the no-data figure
without any failure. -/
theorem C5_counterexample :
    feature_labels.lookup "extra" = none ∧
    update_world_map exDf "extra" =
      Except.ok (Fig.scatter "No data available for selected feature.") :=
  ⟨rfl, rfl⟩

/-- Claim C5 amended: the callback performs no validation of
`selected_feature` against the catalog. A non-catalog feature that is not
a frame column fails at step 1 itself (the groupby column access of line
120); one that is an all-missing frame column returns the no-data figure
with no failure; one that is a frame column with data fails only at the
label lookup of line 130, after the valid-years filter has been
computed. -/
theorem C5_amended_no_early_rejection (df : Dataset) (feat : String)
    (hcat : feature_labels.lookup feat = none) :
    (hasCol df feat = false →
      update_world_map df feat =
        Except.error ("KeyError at groupby column access: " ++ feat)) ∧
    (hasCol df feat = true → filteredView df feat = [] →
      update_world_map df feat =
        Except.ok (Fig.scatter "No data available for selected feature.")) ∧
    (hasCol df feat = true → filteredView df feat ≠ [] →
      update_world_map df feat =
        Except.error ("KeyError at feature_labels lookup: " ++ feat)) :=
  ⟨update_eq_col_error,
   fun hcol hnil => update_eq_scatter hcol hnil,
   fun hcol hne => update_eq_label_error hcol hne hcat⟩

/-- Claim C5 amended witness: `notacat` is a non-catalog column with a
value, and the callback fails at the label lookup, not before step 1. -/
theorem C5_amended_no_early_rejection_witness :
    update_world_map exDf "notacat" =
      Except.error ("KeyError at feature_labels lookup: " ++ "notacat") :=
  (C5_amended_no_early_rejection exDf "notacat" rfl).2.2 (by decide) (by decide)

/-- Claim C6 counterexample: the frame `noColDf` lacks the catalog column
`c_newinc`, yet startup succeeds (nothing validates the catalog against
the columns), and the defect surfaces only at render time as the groupby
`KeyError` when `c_newinc` is selected. -/
theorem C6_counterexample :
    hasCol noColDf "c_newinc" = false ∧
    startup noColDf = Except.ok
      { df := noColDf, dropdown_options := feature_labels,
        default_value := "c_newinc", app_title := "TB Dashboard" } ∧
    update_world_map noColDf "c_newinc" =
      Except.error ("KeyError at groupby column access: " ++ "c_newinc") :=
  ⟨by decide, rfl, rfl⟩

/-- Claim C6 amended: a catalog identifier that is not a frame column is
not detected at startup — startup performs no such validation and always
succeeds — and the defect is discovered at render time, as a `KeyError`
in the callback when that feature is selected. -/
theorem C6_amended_defect_surfaces_at_render (data : Dataset) (feat : String)
    (_hkey : (feature_labels.lookup feat).isSome = true)
    (hmiss : hasCol data feat = false) :
    startup data = Except.ok
      { df := data, dropdown_options := feature_labels,
        default_value := "c_newinc", app_title := "TB Dashboard" } ∧
    update_world_map data feat =
      Except.error ("KeyError at groupby column access: " ++ feat) :=
  ⟨rfl, update_eq_col_error hmiss⟩

/-- Claim C6 amended witness, at the frame missing `c_newinc`. -/
theorem C6_amended_defect_surfaces_at_render_witness :
    startup noColDf = Except.ok
      { df := noColDf, dropdown_options := feature_labels,
        default_value := "c_newinc", app_title := "TB Dashboard" } ∧
    update_world_map noColDf "c_newinc" =
      Except.error ("KeyError at groupby column access: " ++ "c_newinc") :=
  C6_amended_defect_surfaces_at_render noColDf "c_newinc" (by decide) (by decide)

/-- Claim C7: when a catalog feature has exactly one non-missing value
`v` in the whole frame, the choropleth's color range is `(0, v)`: the
99th percentile of a one-element series is that element. -/
theorem C7_single_value_range (df : Dataset) (feat label : String) (v : ℚ)
    (hlab : feature_labels.lookup feat = some label)
    (hcol : hasCol df feat = true)
    (hone : nonMissingVals df feat = [v]) :
    ∃ fs, update_world_map df feat = Except.ok (Fig.map fs) ∧
      fs.range_color = some (0, v) := by
  have hne : nonMissingVals df feat ≠ [] := by simp [hone]
  have hfne : filteredView df feat ≠ [] := fun h => hne (filteredView_eq_nil_iff.mp h)
  have hsub : (nonMissingVals (filteredView df feat) feat).Sublist (nonMissingVals df feat) :=
    (List.filter_sublist df).filterMap _
  rw [hone] at hsub
  have hne2 : nonMissingVals (filteredView df feat) feat ≠ [] :=
    nonMissingVals_filteredView_ne_nil hfne
  have hvals : nonMissingVals (filteredView df feat) feat = [v] := by
    rcases List.sublist_singleton.mp hsub with h0 | h1
    · exact absurd h0 hne2
    · exact h1
  refine ⟨_, update_eq_map hcol hfne hlab, ?_⟩
  show (some ((0 : ℚ), quantile (99/100) (nonMissingVals (filteredView df feat) feat)) :
      Option (ℚ × ℚ)) = some (0, v)
  rw [hvals, quantile_singleton]

/-- Claim C7 witness: on the scenario frame, `c_newinc` has the single
non-missing value 120, and the color range is `(0, 120)`. -/
theorem C7_single_value_range_witness :
    ∃ fs, update_world_map exDf "c_newinc" = Except.ok (Fig.map fs) ∧
      fs.range_color = some (0, 120) :=
  C7_single_value_range exDf "c_newinc" "New Cases Reported" 120 rfl (by decide) (by decide)

/-- Claim C8: for a catalog feature with data, the choropleth's title is
the formatted string embedding the catalog label, and the colorbar label
is that label. -/
theorem C8_title_embeds_label (df : Dataset) (feat label : String)
    (hlab : feature_labels.lookup feat = some label)
    (hcol : hasCol df feat = true)
    (hne : nonMissingVals df feat ≠ []) :
    ∃ fs, update_world_map df feat = Except.ok (Fig.map fs) ∧
      fs.title = "Global TB Map for " ++ label ∧
      fs.colorbar_title = label := by
  have hfne : filteredView df feat ≠ [] := fun h => hne (filteredView_eq_nil_iff.mp h)
  exact ⟨_, update_eq_map hcol hfne hlab, rfl, rfl⟩

/-- Claim C8 witness: selecting `c_newinc` on the scenario frame yields
the title embedding "New Cases Reported" and that colorbar label. -/
theorem C8_title_embeds_label_witness :
    ∃ fs, update_world_map exDf "c_newinc" = Except.ok (Fig.map fs) ∧
      fs.title = "Global TB Map for " ++ "New Cases Reported" ∧
      fs.colorbar_title = "New Cases Reported" :=
  C8_title_embeds_label exDf "c_newinc" "New Cases Reported" rfl (by decide) (by decide)

/-- Claim C9: the callback, viewed as a transition on the module state,
leaves the frame unchanged, and the choropleth it may return carries a
subsequence of the frame's rows (a derived view: no row is altered,
reordered or invented). -/
theorem C9_no_mutation (df : Dataset) (feat : String) :
    (update_world_map_state df feat).1 = df ∧
    (∀ fs, (update_world_map_state df feat).2 = Except.ok (Fig.map fs) →
      fs.data.Sublist df) := by
  refine ⟨rfl, fun fs hfs => ?_⟩
  have hdata : fs.data = filteredView df feat := map_data_eq_filteredView hfs
  rw [hdata]
  exact List.filter_sublist df

/-- Claim C9 witness, on the scenario frame with `c_newinc`. -/
theorem C9_no_mutation_witness :
    (update_world_map_state exDf "c_newinc").1 = exDf ∧
    ∃ fs, (update_world_map_state exDf "c_newinc").2 = Except.ok (Fig.map fs) ∧
      fs.data.Sublist exDf := by
  have h := C9_no_mutation exDf "c_newinc"
  have hm : update_world_map exDf "c_newinc" = Except.ok (Fig.map
      (plot_world_map (filteredView exDf "c_newinc")
        "iso3" "c_newinc" "country" "year"
        ("Global TB Map for " ++ "New Cases Reported") "New Cases Reported"
        "Viridis" "natural earth"
        (2/10) (6/10) (5/10) 10 (9/10) 1200 700
        (some 0)
        (some (quantile (99/100)
          (nonMissingVals (filteredView exDf "c_newinc") "c_newinc"))))) :=
    update_eq_map (by decide) (by decide) rfl
  exact ⟨h.1, _, hm, h.2 _ hm⟩

/-- Claim C10: `plot_world_map` sets an explicit color range exactly when
both `vmin` and `vmax` are non-`None`; with either bound absent the
figure is built with no color range, so passing a single bound silently
yields an unclamped map. -/
theorem C10_range_clamp_iff_both_bounds (df : Dataset)
    (locations color hover_name animation_frame : String)
    (title colorbar_title color_scale projection_type : String)
    (slider_x slider_len colorbar_len colorbar_thickness colorbar_x : ℚ)
    (width height : ℕ) (vmin vmax : Option ℚ) :
    ((plot_world_map df locations color hover_name animation_frame
        title colorbar_title color_scale projection_type
        slider_x slider_len colorbar_len colorbar_thickness colorbar_x
        width height vmin vmax).range_color ≠ none ↔
      (vmin.isSome = true ∧ vmax.isSome = true)) ∧
    (∀ a b, vmin = some a → vmax = some b →
      (plot_world_map df locations color hover_name animation_frame
        title colorbar_title color_scale projection_type
        slider_x slider_len colorbar_len colorbar_thickness colorbar_x
        width height vmin vmax).range_color = some (a, b)) := by
  cases vmin <;> cases vmax <;> simp [plot_world_map]

/-- Claim C10 witness: with only `vmin` supplied the figure has no color
range, and with both bounds it is clamped to them. -/
theorem C10_range_clamp_iff_both_bounds_witness :
    (plot_world_map exDf "iso3" "c_newinc" "country" "year"
        "t" "c" "Viridis" "natural earth" 0 0 0 0 0 1200 700
        (some 0) none).range_color = none ∧
    (plot_world_map exDf "iso3" "c_newinc" "country" "year"
        "t" "c" "Viridis" "natural earth" 0 0 0 0 0 1200 700
        (some 0) (some 120)).range_color = some (0, 120) := by
  constructor
  · have h := (C10_range_clamp_iff_both_bounds exDf "iso3" "c_newinc" "country" "year"
      "t" "c" "Viridis" "natural earth" 0 0 0 0 0 1200 700 (some 0) none).1
    by_contra hne
    exact absurd ((h.mp hne).2) (by decide)
  · exact (C10_range_clamp_iff_both_bounds exDf "iso3" "c_newinc" "country" "year"
      "t" "c" "Viridis" "natural earth" 0 0 0 0 0 1200 700 (some 0) (some 120)).2
      0 120 rfl rfl
example : hasCol exDf "c_newinc" = true := by decide
example : filteredView exDf "c_newinc" = [row2010] := by decide
example : nonMissingVals exDf "c_newinc" = [120] := by decide
example : update_world_map exDf "extra" = Except.ok (Fig.scatter "No data available for selected feature.") := rfl
example : update_world_map noColDf "c_newinc" = Except.error ("KeyError at groupby column access: " ++ "c_newinc") := rfl
example : update_world_map exDf "notacat" = Except.error ("KeyError at feature_labels lookup: " ++ "notacat") := rfl
example : filteredView exDf3 "c_newinc" = [rowA2010, rowB2010] := by decide

end TbDash
